import Mathlib

set_option maxRecDepth 8000

/- The Batteries rational-number operations are `@[irreducible]` by default,
which blocks kernel evaluation (`decide`) of the concrete witnesses below;
re-open them for this file. -/
attribute [local semireducible] Rat.add Rat.mul Rat.sub Rat.inv Rat.ofScientific

/-!
Verification of the orbital state & collision-avoidance engine of the
Sat-trajectory repository.  The TypeScript sources are shallowly embedded:
JS numbers are modelled as exact rationals (ℚ) where the code performs
decimal formatting / parsing / comparisons, and as real numbers (ℝ) where
the code uses transcendental functions (sqrt, exp, trig).  JS strings are
modelled as `List Char`.
-/

/-! ## JS string / number primitives -/
/-- JS `String.prototype.trim` (the strings handled here only ever carry
ordinary spaces as whitespace). -/
def jsTrim (s : List Char) : List Char :=
  ((s.dropWhile (· = ' ')).reverse.dropWhile (· = ' ')).reverse

/-- JS `s.substring(a, b)` for `a ≤ b` (clamping to the string length). -/
def jsSubstring (s : List Char) (a b : ℕ) : List Char := (s.take b).drop a

/-- JS `s.padStart(w, c)` (single pad character). -/
def padStartList (c : Char) (w : ℕ) (s : List Char) : List Char :=
  List.replicate (w - s.length) c ++ s

/-- JS `s.padEnd`/the source's `padRight` helper. -/
def padRightList (c : Char) (w : ℕ) (s : List Char) : List Char :=
  s ++ List.replicate (w - s.length) c

/-- Value of a (decimal) digit string, most significant digit first. -/
def digitsToNat (l : List Char) : ℕ := l.foldl (fun a c => 10 * a + (c.toNat - 48)) 0

/-- Unsigned part of JS `parseFloat`: an optional integer part, an optional
fraction after a decimal point; `none` models the JS result `NaN`.
(The exponent / `Infinity` forms of `parseFloat` never occur on the fixed
TLE column inputs handled here and are not modelled.) -/
def jsParseUnsigned (s : List Char) : Option ℚ :=
  let ip := s.takeWhile Char.isDigit
  let rest := s.dropWhile Char.isDigit
  match rest with
  | '.' :: r2 =>
    let fp := r2.takeWhile Char.isDigit
    if ip.isEmpty ∧ fp.isEmpty then none
    else some ((digitsToNat ip : ℚ) + (digitsToNat fp : ℚ) / (10 : ℚ) ^ fp.length)
  | _ => if ip.isEmpty then none else some ((digitsToNat ip : ℚ))

/-- JS `parseFloat`: skips leading whitespace, optional sign, then parses the
longest numeric prefix; `none` models `NaN`. -/
def jsParseFloat (s : List Char) : Option ℚ :=
  match s.dropWhile (· = ' ') with
  | '-' :: r => (jsParseUnsigned r).map (fun q => -q)
  | '+' :: r => jsParseUnsigned r
  | s2 => jsParseUnsigned s2

/-- JS `Math.round` (round half towards +∞). -/
def jsRound (q : ℚ) : ℤ := ⌊q + 1 / 2⌋

/-- JS `x.toFixed(n)` for `n ≥ 1` on an exactly-representable input:
round `|x|·10^n`, render, and insert the decimal point `n` digits from the
right, prefixing the sign of `x`. -/
def toFixedQ (n : ℕ) (q : ℚ) : List Char :=
  let k : ℕ := (jsRound (|q| * (10 : ℚ) ^ n)).toNat
  let ds := padStartList '0' (n + 1) (Nat.repr k).data
  let sign : List Char := if q < 0 then ['-'] else []
  sign ++ ds.take (ds.length - n) ++ '.' :: ds.drop (ds.length - n)

/-! ## TLE encoder (`src/utils/orbit.ts`, `createTLEFromKeplerian`) -/
/-- Per-character contribution to the TLE checksum
(`tleChecksum` in `orbit.ts`: digits count their value, '-' counts 1). -/
def tleChar (c : Char) : ℕ := if c.isDigit then c.toNat - 48 else if c = '-' then 1 else 0

/-- Model of `tleChecksum` from `orbit.ts`: sum over the first 68 columns, mod 10. -/
def tleChecksum (l : List Char) : ℕ :=
  ((l.take 68).foldl (fun a c => a + tleChar c) 0) % 10

/-- Model of `KeplerianElements` from `orbit.ts` (the `epoch : Date` field is handled
via the pre-rendered epoch string, see `createTLEFromKeplerian`). -/
structure KeplerianElements where
  inclinationDeg : ℚ
  raanDeg : ℚ
  eccentricity : ℚ
  argumentOfPerigeeDeg : ℚ
  meanAnomalyDeg : ℚ
  meanMotionRevPerDay : ℚ
  noradId : Option ℕ := none
  name : Option String := none
deriving DecidableEq

/-- Catalog number selection in `createTLEFromKeplerian`: a present, positive
`noradId` is used as is; otherwise `99990 + Math.floor(Math.random()*9)`.
`Math.random` is modelled by the explicit `rand` parameter
(`Math.floor(Math.random()*9) ∈ [0,8]` becomes `rand % 9`). -/
def tleNorad (rand : ℕ) (e : KeplerianElements) : ℕ :=
  match e.noradId with
  | some n => if 0 < n then n else 99990 + rand % 9
  | none => 99990 + rand % 9

/-- Body (before padding / checksum) of TLE line 1 in `createTLEFromKeplerian`:
`1 ${norad}U 00000A   ${epochStr}  .00000000  00000-0  00000-0 0  999`. -/
def tleLine1Body (rand : ℕ) (epochStr : List Char) (e : KeplerianElements) : List Char :=
  "1 ".data ++ padStartList '0' 5 (Nat.repr (tleNorad rand e)).data ++ "U 00000A   ".data
    ++ epochStr ++ "  .00000000  00000-0  00000-0 0  999".data

/-- Body (before padding / checksum) of TLE line 2 in `createTLEFromKeplerian`:
`2 ${norad}${i}${raan} ${ecc} ${argPer} ${meanAnom} ${meanMotion}${revNum}`. -/
def tleLine2Body (rand : ℕ) (e : KeplerianElements) : List Char :=
  let i := padStartList ' ' 8 (toFixedQ 4 e.inclinationDeg)
  let raan := padStartList ' ' 8 (toFixedQ 4 e.raanDeg)
  let ecc := padStartList '0' 7 (Nat.repr (jsRound (|e.eccentricity| * 10 ^ 7)).toNat).data
  let argPer := padStartList ' ' 8 (toFixedQ 4 e.argumentOfPerigeeDeg)
  let meanAnom := padStartList ' ' 8 (toFixedQ 4 e.meanAnomalyDeg)
  let meanMotion := padStartList ' ' 11 (toFixedQ 8 e.meanMotionRevPerDay)
  let revNum := padStartList ' ' 5 ['0']
  "2 ".data ++ padStartList '0' 5 (Nat.repr (tleNorad rand e)).data ++ i ++ raan ++ " ".data
    ++ ecc ++ " ".data ++ argPer ++ " ".data ++ meanAnom ++ " ".data ++ meanMotion ++ revNum

/-- Model of `l = padRight(l, 68); l = l + tleChecksum(l)` — the per-line finishing
step of `createTLEFromKeplerian` (number-to-string concatenation renders the
checksum in decimal). -/
def tleFinishLine (b : List Char) : List Char :=
  padRightList ' ' 68 b ++ (Nat.repr (tleChecksum (padRightList ' ' 68 b))).data

/-- Model of `createTLEFromKeplerian` from `orbit.ts`.  `epochStr` is the output of
`formatEpochYYDDD(elements.epoch || new Date())` (the Gregorian-calendar
rendering of the epoch is treated as an opaque input; no claim depends on
its digits).  Returns (line1, line2, name). -/
def createTLEFromKeplerian (rand : ℕ) (epochStr : List Char) (e : KeplerianElements) :
    List Char × List Char × String :=
  (tleFinishLine (tleLine1Body rand epochStr e),
   tleFinishLine (tleLine2Body rand e),
   e.name.getD ( "CUSTOM-" ++ Nat.repr (tleNorad rand e)))

/-! ## TLE line-2 decoding (`OrbitControlPanel`, fixed standard columns) -/
/-- The six orbital fields as parsed from a TLE line 2 by `OrbitControlPanel`
(`parseFloat` of fixed substrings; `none` models `NaN`). -/
structure TleParsedFields where
  inclinationDeg : Option ℚ
  raanDeg : Option ℚ
  eccentricity : Option ℚ
  argPerigeeDeg : Option ℚ
  meanAnomalyDeg : Option ℚ
  meanMotionRevPerDay : Option ℚ
deriving DecidableEq

/-- The element parsing in `OrbitControlPanel`'s `useEffect`:
standard TLE columns 8-16 / 17-25 / 26-33 / 34-42 / 43-51 / 52-63,
eccentricity reconstructed as `'0.' + mantissa`. -/
def parseTLE2Fields (tle2 : List Char) : TleParsedFields :=
  { inclinationDeg := jsParseFloat (jsTrim (jsSubstring tle2 8 16))
    raanDeg := jsParseFloat (jsTrim (jsSubstring tle2 17 25))
    eccentricity := jsParseFloat ( '0' :: '.' :: jsTrim (jsSubstring tle2 26 33))
    argPerigeeDeg := jsParseFloat (jsTrim (jsSubstring tle2 34 42))
    meanAnomalyDeg := jsParseFloat (jsTrim (jsSubstring tle2 43 51))
    meanMotionRevPerDay := jsParseFloat (jsTrim (jsSubstring tle2 52 63)) }

/-! ## Checksum specification (spec §3, §8: "digit sum, '-' counts as 1,
ignoring all other characters, mod 10") -/
/-- The spec's checksum: sum of the digit characters plus the count of '-'
characters, mod 10. -/
def specChecksum (l : List Char) : ℕ :=
  (((l.filter Char.isDigit).map (fun c => c.toNat - 48)).sum + l.count '-') % 10

/-- Concrete element set used to witness the checksum law. -/
def eW8 : KeplerianElements :=
  { inclinationDeg := 97.5, raanDeg := 12.3456, eccentricity := 0.001,
    argumentOfPerigeeDeg := 45.6789, meanAnomalyDeg := 300.1234,
    meanMotionRevPerDay := 14.25, noradId := some 43013 }

/-! ## Claim C1 — encode/decode round trip -/
/-- A valid ISS-like orbital element set (eccentricity in [0,1), positive
mean motion, finite angles). -/
def eC1 : KeplerianElements :=
  { inclinationDeg := 51.64, raanDeg := 247.46, eccentricity := 0.00067,
    argumentOfPerigeeDeg := 130.53, meanAnomalyDeg := 325.02,
    meanMotionRevPerDay := 15.5, noradId := some 25544 }

/-! ## Risk assessment (`src/utils/orbit.ts`, `assessRiskLevel`) -/
inductive RiskLevel where
  | CRITICAL
  | HIGH
  | MODERATE
  | LOW
deriving DecidableEq

/-- Model of `assessRiskLevel` from `orbit.ts`: three time bands with tightening
distance thresholds. -/
def assessRiskLevel (missDistanceKm timeToTcaMinutes : ℚ) : RiskLevel :=
  if timeToTcaMinutes < 60 then
    if missDistanceKm < 1 then .CRITICAL
    else if missDistanceKm < 5 then .HIGH
    else if missDistanceKm < 10 then .MODERATE
    else .LOW
  else if timeToTcaMinutes < 1440 then
    if missDistanceKm < 0.5 then .CRITICAL
    else if missDistanceKm < 2 then .HIGH
    else if missDistanceKm < 5 then .MODERATE
    else .LOW
  else
    if missDistanceKm < 0.5 then .HIGH
    else if missDistanceKm < 1 then .MODERATE
    else .LOW

/-- The tier table exactly as written in spec §4.5: `<60 min`: 1/5/10;
`<1440 min`: 0.5/2/5; `≥1440 min`: 0.5/1 with no CRITICAL tier. -/
def riskLevelSpec (missDistanceKm timeToTcaMinutes : ℚ) : RiskLevel :=
  if timeToTcaMinutes < 60 then
    if missDistanceKm < 1 then .CRITICAL
    else if missDistanceKm < 5 then .HIGH
    else if missDistanceKm < 10 then .MODERATE
    else .LOW
  else if timeToTcaMinutes < 1440 then
    if missDistanceKm < 0.5 then .CRITICAL
    else if missDistanceKm < 2 then .HIGH
    else if missDistanceKm < 5 then .MODERATE
    else .LOW
  else
    if missDistanceKm < 0.5 then .HIGH
    else if missDistanceKm < 1 then .MODERATE
    else .LOW

/-! ## Collision probability (`src/utils/orbit.ts`,
`calculateCollisionProbability`), modelled over ℝ -/
/-- Model of `calculateCollisionProbability` from `orbit.ts`: certain collision inside
the combined radius, otherwise a clamped Gaussian-style heuristic
`min(1, max(0, exp(-(d/sigma)²/2) · combined/d))` with
`sigma = max(0.5, d·0.1)`. -/
noncomputable def calculateCollisionProbability
    (missDistanceKm relativeVelocityKmS primaryRadiusKm secondaryRadiusKm : ℝ) : ℝ :=
  if missDistanceKm ≤ primaryRadiusKm + secondaryRadiusKm then 1
  else
    min 1 (max 0
      (Real.exp (-(missDistanceKm / max 0.5 (missDistanceKm * 0.1)) ^ 2 / 2) *
        ((primaryRadiusKm + secondaryRadiusKm) / missDistanceKm)))

/-- The probability formula exactly as written in spec §4.5 (note: no
`max 0` clamp in the spec's "otherwise" branch). -/
noncomputable def probabilitySpec
    (missDistanceKm relativeVelocityKmS radiusAKm radiusBKm : ℝ) : ℝ :=
  if missDistanceKm ≤ radiusAKm + radiusBKm then 1
  else
    min 1
      (Real.exp (-(missDistanceKm / max 0.5 (missDistanceKm * 0.1)) ^ 2 / 2) *
        ((radiusAKm + radiusBKm) / missDistanceKm))

/-! ## Conjunction geometry (`App.tsx`, `handleConjunctionClick`),
modelled over ℝ -/
/-- A geodetic position (degrees / km), as produced by `geodeticFromTLEAt`. -/
structure GeoPos where
  lat : ℝ
  lon : ℝ
  altKm : ℝ

/-- JS `Math.atan2 y x`, via the complex argument function. -/
noncomputable def jsAtan2 (y x : ℝ) : ℝ := Complex.arg ⟨x, y⟩

/-- The ground distance computed in `handleConjunctionClick`: haversine
formula with Earth radius `R = 6371` km on the two latitude/longitude
pairs (degrees converted to radians). -/
noncomputable def haversineGroundDistanceKm (p1 p2 : GeoPos) : ℝ :=
  let dLat := (p2.lat - p1.lat) * Real.pi / 180
  let dLon := (p2.lon - p1.lon) * Real.pi / 180
  let lat1Rad := p1.lat * Real.pi / 180
  let lat2Rad := p2.lat * Real.pi / 180
  let a := Real.sin (dLat / 2) * Real.sin (dLat / 2) +
    Real.cos lat1Rad * Real.cos lat2Rad * Real.sin (dLon / 2) * Real.sin (dLon / 2)
  6371 * (2 * jsAtan2 (Real.sqrt a) (Real.sqrt (1 - a)))

/-- Model of `totalDistance` in `handleConjunctionClick`:
`sqrt(groundDistance² + altitudeDiff²)` with the *signed* altitude
difference `pos2.altKm - pos1.altKm`. -/
noncomputable def conjunctionMissDistanceKm (p1 p2 : GeoPos) : ℝ :=
  Real.sqrt (haversineGroundDistanceKm p1 p2 * haversineGroundDistanceKm p1 p2 +
    (p2.altKm - p1.altKm) * (p2.altKm - p1.altKm))

/-- The conjunction marker of `handleConjunctionClick`: arithmetic midpoint
of the two latitudes, longitudes and altitudes. -/
noncomputable def conjunctionMarker (p1 p2 : GeoPos) : GeoPos :=
  ⟨(p1.lat + p2.lat) / 2, (p1.lon + p2.lon) / 2, (p1.altKm + p2.altKm) / 2⟩

/-! ## Maneuver application (`OrbitControlPanel`, `applyManeuver`) -/
/-- Model of `LocalKeplerianElements` from `OrbitControlPanel` (state parsed from the
satellite's TLE). -/
structure LocalKeplerianElements where
  semiMajorAxisKm : ℚ
  eccentricity : ℚ
  inclinationDeg : ℚ
  raanDeg : ℚ
  argPerigeeDeg : ℚ
  meanAnomalyDeg : ℚ
  epochYear : ℚ
  epochDay : ℚ
deriving DecidableEq

/-- The `adjustments` state of `OrbitControlPanel`. -/
structure ManeuverAdjustments where
  altitudeChange : ℚ
  inclinationChange : ℚ
  raanChange : ℚ
  eccentricityChange : ℚ
  argPerigeeChange : ℚ
  meanAnomalyChange : ℚ
deriving DecidableEq

/-- The satellite identity consumed by `applyManeuver`:
`parseInt(satellite.noradId) || undefined` is modelled as the already-parsed
`Option ℕ`, plus the name. -/
structure SatelliteIdentity where
  noradId : Option ℕ
  name : String
deriving DecidableEq

/-- Truncation towards zero, as used by the JS `%` operator. -/
def ratTrunc (q : ℚ) : ℤ := if 0 ≤ q then ⌊q⌋ else ⌈q⌉

/-- The JS remainder operator `a % b` (sign follows the dividend). -/
def jsRem (a b : ℚ) : ℚ := a - b * (ratTrunc (a / b) : ℚ)

/-- New semi-major axis computed by `applyManeuver`:
`(a - 6371 + altitudeChange) + 6371`. -/
def newSemiMajorAxisKm (e : LocalKeplerianElements) (adj : ManeuverAdjustments) : ℚ :=
  (e.semiMajorAxisKm - 6371 + adj.altitudeChange) + 6371

/-- New mean motion of `applyManeuver`:
`sqrt(mu/a'³)·86400/(2π)` rev/day.  `none` models the non-finite JS result
(`NaN` via the square root of a negative for `a' < 0`, `Infinity` for
`a' = 0`). -/
noncomputable def maneuverMeanMotion (a : ℚ) : Option ℝ :=
  if 0 < a then some (Real.sqrt (398600.4418 / (a : ℝ) ^ 3) * 86400 / (2 * Real.pi))
  else none

/-- Delta-v estimate of `applyManeuver`:
`|sqrt(mu/a2) - sqrt(mu/a1)|·1000` m/s; `none` models the non-finite JS
result when either radius is non-positive. -/
noncomputable def maneuverDeltaVMs (a1 a2 : ℚ) : Option ℝ :=
  if 0 < a1 ∧ 0 < a2 then
    some (|Real.sqrt (398600.4418 / (a2 : ℝ)) - Real.sqrt (398600.4418 / (a1 : ℝ))| * 1000)
  else none

/-- The element record handed to `createTLEFromKeplerian` by
`applyManeuver` (`epoch: new Date()` is the explicit `now` parameter). -/
structure ManeuverElements where
  inclinationDeg : ℚ
  raanDeg : ℚ
  eccentricity : ℚ
  argumentOfPerigeeDeg : ℚ
  meanAnomalyDeg : ℚ
  meanMotionRevPerDay : Option ℝ
  epoch : ℚ
  noradId : Option ℕ
  name : String

/-- Failure channel of a maneuver application.  The spec's §4.6/§7 error
taxonomy names `ManeuverRejected`; in the source the only failure path is
the catch-all exception handler of `applyManeuver`, and none of the modelled
operations throws. -/
inductive ManeuverError where
  | rejected
deriving DecidableEq

/-- Successful outcome of `applyManeuver` (new elements plus the delta-v
reported in the maneuver description). -/
structure AppliedManeuver where
  newElements : ManeuverElements
  deltaVMs : Option ℝ

/-- Model of `applyManeuver` from `OrbitControlPanel`: new semi-major axis from the
altitude change, new mean motion from the semi-major axis, angle deltas
wrapped by `(x + 360) % 360`, eccentricity clamped into [0, 0.9], epoch
stamped with the wall clock (`now`).  No domain validation is performed:
the body never produces an error. -/
noncomputable def applyManeuver (e : LocalKeplerianElements) (adj : ManeuverAdjustments)
    (sat : SatelliteIdentity) (now : ℚ) : Except ManeuverError AppliedManeuver :=
  Except.ok
    { newElements :=
      { inclinationDeg := e.inclinationDeg + adj.inclinationChange
        raanDeg := jsRem (e.raanDeg + adj.raanChange + 360) 360
        eccentricity := max 0 (min 0.9 (e.eccentricity + adj.eccentricityChange))
        argumentOfPerigeeDeg := jsRem (e.argPerigeeDeg + adj.argPerigeeChange + 360) 360
        meanAnomalyDeg := jsRem (e.meanAnomalyDeg + adj.meanAnomalyChange + 360) 360
        meanMotionRevPerDay := maneuverMeanMotion (newSemiMajorAxisKm e adj)
        epoch := now
        noradId := sat.noradId
        name := sat.name }
      deltaVMs := maneuverDeltaVMs e.semiMajorAxisKm (newSemiMajorAxisKm e adj) }

/-! ## Claim C2 — maneuver rejection -/
/-- A 400 km circular-ish orbit (`a = 6771` km). -/
def eC2 : LocalKeplerianElements :=
  { semiMajorAxisKm := 6771, eccentricity := 0.0001, inclinationDeg := 51.64,
    raanDeg := 100, argPerigeeDeg := 50, meanAnomalyDeg := 10,
    epochYear := 24, epochDay := 1 }

/-- An altitude change of −7000 km, which drives the semi-major axis to
−229 km. -/
def adjC2 : ManeuverAdjustments :=
  { altitudeChange := -7000, inclinationChange := 0, raanChange := 0,
    eccentricityChange := 0, argPerigeeChange := 0, meanAnomalyChange := 0 }

def satC2 : SatelliteIdentity := { noradId := some 25544, name := "SAT-A" }

/-! ## Claim C9 — determinism / idempotence of maneuver application -/
/-- A small, valid +5 km altitude raise. -/
def adjC9 : ManeuverAdjustments :=
  { altitudeChange := 5, inclinationChange := 0, raanChange := 0,
    eccentricityChange := 0, argPerigeeChange := 0, meanAnomalyChange := 0 }

/-! ## Trajectory sampling (`src/utils/orbit.ts`, `generateOrbitPath`) -/
/-- A JS number as it appears in the sampling filter: a finite rational, or
one of the non-finite values `NaN`, `+Infinity`, `-Infinity`. -/
inductive JsNum where
  | fin (q : ℚ)
  | nan
  | pinf
  | ninf
deriving DecidableEq

/-- JS `<` on numbers: any comparison with `NaN` is false; `-Infinity` is
below and `+Infinity` above every other value. -/
def jsLt : JsNum → JsNum → Bool
  | .fin a, .fin b => decide (a < b)
  | .nan, _ => false
  | _, .nan => false
  | .ninf, .ninf => false
  | .ninf, _ => true
  | _, .ninf => false
  | .pinf, _ => false
  | .fin _, .pinf => true

/-- JS `isFinite`. -/
def jsIsFinite : JsNum → Bool
  | .fin _ => true
  | _ => false

/-- The finite value of a `JsNum` (only used after a finiteness check). -/
def jsNumVal : JsNum → ℚ
  | .fin q => q
  | _ => 0

/-- Model of `OrbitPoint` from `orbit.ts`. -/
structure OrbitPoint where
  lat : ℚ
  lon : ℚ
  altKm : ℚ
deriving DecidableEq

/-- What one iteration of the sampling loop does with a propagated sample:
`skip` models `continue`, `abort` models `return []`, `keep` models
`points.push(...)`. -/
inductive SampleClass where
  | skip
  | abort
  | keep (p : OrbitPoint)
deriving DecidableEq

/-- The body of the sampling loop of `generateOrbitPath`: a missing position
(`!positionEci || typeof positionEci === 'boolean'`) is skipped; an altitude
comparing below 100 or above 100000 km is skipped; otherwise a non-finite
altitude/latitude/longitude aborts the whole path; otherwise the point is
kept. -/
def classifySample : Option (JsNum × JsNum × JsNum) → SampleClass
  | none => .skip
  | some (lat, lon, alt) =>
    if jsLt alt (.fin 100) || jsLt (.fin 100000) alt then .skip
    else if !(jsIsFinite alt && jsIsFinite lat && jsIsFinite lon) then .abort
    else .keep ⟨jsNumVal lat, jsNumVal lon, jsNumVal alt⟩

/-- The external propagation boundary of `generateOrbitPath`
(`twoline2satrec` / `propagate` / `gstime` / `eciToGeodetic` from
satellite.js): an initialization-error flag and, per evaluation time (ms),
either a geodetic triple (lat, lon, altKm) or `none` when the propagator
yields no position. -/
structure Propagator where
  initError : Bool
  geo : ℚ → Option (JsNum × JsNum × JsNum)

/-- The guard chain of `generateOrbitPath` before the sampling loop: missing
or short or mis-prefixed TLE lines, an SGP4 initialization error, and a
non-parseable / non-positive mean motion (TLE line 2, columns 52-63) all
yield no mean motion (and hence an empty path). -/
def parseGuards (P : Propagator) (tle1 tle2 : List Char) : Option ℚ :=
  if tle1.isEmpty || tle2.isEmpty then none
  else if tle1.length < 69 || tle2.length < 69 then none
  else if ¬((jsTrim tle1).take 2 = "1 ".data ∧ (jsTrim tle2).take 2 = "2 ".data) then none
  else if P.initError then none
  else
    match jsParseFloat (jsSubstring tle2 52 63) with
    | none => none
    | some mm => if mm ≤ 0 then none else some mm

/-- Model of `duration` in `generateOrbitPath`: the supplied `minutesAhead`, or one
orbital period `1440 / meanMotion` by default. -/
def orbitDuration (mm : ℚ) (minutesAhead : Option ℚ) : ℚ :=
  minutesAhead.getD (1440 / mm)

/-- Model of `step` in `generateOrbitPath`: `min(stepMinutes, period / 100)`. -/
def orbitStep (mm stepMinutes : ℚ) : ℚ :=
  min stepMinutes ((1440 / mm) / 100)

/-- Model of `startTime` in `generateOrbitPath`: `center − (duration/2)·60·1000` ms. -/
def orbitStart (centerMs duration : ℚ) : ℚ :=
  centerMs - duration / 2 * 60000

/-- The evaluation offsets (in minutes) of the sampling loop
`for (let m = 0; m <= duration; m += step)`.  The `0 < step` conjunct makes
the recursion well-founded; the JS loop does not terminate when
`step ≤ 0 ∧ 0 ≤ duration` (see `LoopRun` below for the semantics that
captures this). -/
def sampleOffsets (duration step m : ℚ) : List ℚ :=
  if h : 0 < step ∧ m ≤ duration then
    m :: sampleOffsets duration step (m + step)
  else []
termination_by (⌊(duration - m) / step⌋ + 1).toNat
decreasing_by
  obtain ⟨hs, hm⟩ := h
  have h1 : (duration - (m + step)) / step = (duration - m) / step - 1 := by
    field_simp
    ring
  rw [h1, Int.floor_sub_one]
  have h2 : (0 : ℤ) ≤ ⌊(duration - m) / step⌋ :=
    Int.floor_nonneg.mpr (div_nonneg (by linarith) hs.le)
  omega

/-- The sampling loop of `generateOrbitPath`, processing each offset in
order: `none` models the `return []` taken on a non-finite sample (it
discards everything already collected), `some points` models normal
completion. -/
def runLoop (geo : ℚ → Option (JsNum × JsNum × JsNum)) (duration step start m : ℚ) :
    Option (List OrbitPoint) :=
  if h : 0 < step ∧ m ≤ duration then
    match classifySample (geo (start + m * 60000)) with
    | .abort => none
    | .skip => runLoop geo duration step start (m + step)
    | .keep p => (runLoop geo duration step start (m + step)).map (p :: ·)
  else some []
termination_by (⌊(duration - m) / step⌋ + 1).toNat
decreasing_by
  obtain ⟨hs, hm⟩ := h
  have h1 : (duration - (m + step)) / step = (duration - m) / step - 1 := by
    field_simp
    ring
  rw [h1, Int.floor_sub_one]
  have h2 : (0 : ℤ) ≤ ⌊(duration - m) / step⌋ :=
    Int.floor_nonneg.mpr (div_nonneg (by linarith) hs.le)
  omega

/-- Model of `generateOrbitPath` from `orbit.ts`: guards, then the centred sampling
loop; a `none` loop outcome is the in-loop `return []`. -/
def generateOrbitPath (P : Propagator) (tle1 tle2 : List Char)
    (minutesAhead : Option ℚ) (stepMinutes centerMs : ℚ) : List OrbitPoint :=
  match parseGuards P tle1 tle2 with
  | none => []
  | some mm =>
    (runLoop P.geo (orbitDuration mm minutesAhead) (orbitStep mm stepMinutes)
      (orbitStart centerMs (orbitDuration mm minutesAhead)) 0).getD []

/-- Big-step semantics of the JS sampling loop
`for (let m = 0; m <= duration; m += step)` of `generateOrbitPath`, with the
same body as `runLoop`.  Unlike `runLoop` (whose well-founded recursion
requires `0 < step`), this relation is exactly the JS loop: when
`step ≤ 0 ∧ 0 ≤ duration` (and no abort is reached) *no* derivation exists,
reflecting that the JS loop never terminates there. -/
inductive LoopRun (geo : ℚ → Option (JsNum × JsNum × JsNum)) (duration step start : ℚ) :
    ℚ → Option (List OrbitPoint) → Prop where
  | done : ∀ m, ¬ m ≤ duration → LoopRun geo duration step start m (some [])
  | abort : ∀ m, m ≤ duration →
      classifySample (geo (start + m * 60000)) = .abort →
      LoopRun geo duration step start m none
  | skip : ∀ m r, m ≤ duration →
      classifySample (geo (start + m * 60000)) = .skip →
      LoopRun geo duration step start (m + step) r →
      LoopRun geo duration step start m r
  | keep : ∀ m p r, m ≤ duration →
      classifySample (geo (start + m * 60000)) = .keep p →
      LoopRun geo duration step start (m + step) r →
      LoopRun geo duration step start m (r.map (p :: ·))

/-- Big-step semantics of the whole `generateOrbitPath` call: either a guard
fails and the result is `[]`, or the loop runs to completion and the result
is its outcome (`none`, the in-loop `return []`, collapsing to `[]`). -/
def GenOrbitRun (P : Propagator) (tle1 tle2 : List Char) (minutesAhead : Option ℚ)
    (stepMinutes centerMs : ℚ) (out : List OrbitPoint) : Prop :=
  match parseGuards P tle1 tle2 with
  | none => out = []
  | some mm =>
    ∃ r, LoopRun P.geo (orbitDuration mm minutesAhead) (orbitStep mm stepMinutes)
      (orbitStart centerMs (orbitDuration mm minutesAhead)) 0 r ∧ out = r.getD []

/-- The point kept by a classification, if any. -/
def keepOf : SampleClass → Option OrbitPoint
  | .keep p => some p
  | _ => none

/-- Sequential processing of a list of sample classifications: `abort`
discards everything (`none`), `skip` drops the sample, `keep` collects the
point. -/
def processSamples : List SampleClass → Option (List OrbitPoint)
  | [] => some []
  | .abort :: _ => none
  | .skip :: rest => processSamples rest
  | .keep p :: rest => (processSamples rest).map (p :: ·)

/-! ## Concrete inputs for the sampling claims -/
/-- A well-formed 69-character TLE line 1. -/
def tleA : List Char :=
  "1 25544U 98067A   24001.00000000  .00000000  00000-0  00000-0 0  9991".data

/-- A well-formed 69-character TLE line 2 with mean motion 15.5 rev/day in
columns 52-63. -/
def tleB : List Char :=
  "2 25544  51.6400 247.4600 0006700 130.5300 325.0200 15.50000000    09".data

/-- A propagator that always yields the finite geodetic triple
(0°, 0°, 400 km). -/
def pOK : Propagator :=
  { initError := false, geo := fun _ => some (.fin 0, .fin 0, .fin 400) }

/-- A propagator that yields an infinite altitude at time 0 and
(0°, 0°, 400 km) everywhere else. -/
def pInf : Propagator :=
  { initError := false,
    geo := fun t => if t = 0 then some (.fin 0, .fin 0, .pinf)
      else some (.fin 0, .fin 0, .fin 400) }

/-! ## Theorems -/

theorem foldl_tleChar (l : List Char) (a : ℕ) :
    l.foldl (fun a c => a + tleChar c) a =
      a + ((l.filter Char.isDigit).map (fun c => c.toNat - 48)).sum + l.count '-' := by
  induction l generalizing a with
  | nil => simp
  | cons c t ih =>
    rw [List.foldl_cons, ih]
    by_cases hd : c.isDigit
    · have hm : c ≠ '-' := by
        intro h; subst h; simp [Char.isDigit] at hd
      simp [List.filter_cons, List.count_cons, hd, hm, tleChar, beq_iff_eq]
      omega
    · by_cases hm : c = '-'
      · subst hm
        simp [List.filter_cons, List.count_cons, hd, tleChar, beq_iff_eq]
        omega
      · simp [List.filter_cons, List.count_cons, hd, hm, tleChar, beq_iff_eq]

theorem tleChecksum_eq_specChecksum (l : List Char) (h : l.length ≤ 68) :
    tleChecksum l = specChecksum l := by
  rw [tleChecksum, specChecksum, List.take_of_length_le h, foldl_tleChar]
  simp

theorem natRepr_digit (c : ℕ) (h : c < 10) : (Nat.repr c).data = [Char.ofNat (48 + c)] := by
  interval_cases c <;> rfl

theorem tleFinishLine_checksum (b : List Char)
    (hb : (tleFinishLine b).length = 69) :
    ∃ d, (tleFinishLine b).getLast? = some d ∧ d.isDigit = true ∧
      d.toNat - 48 = specChecksum ((tleFinishLine b).take 68) := by
  set p := padRightList ' ' 68 b with hp
  have hcs : tleChecksum p < 10 := Nat.mod_lt _ (by norm_num)
  have hrepr := natRepr_digit _ hcs
  have hfin : tleFinishLine b = p ++ [Char.ofNat (48 + tleChecksum p)] := by
    rw [tleFinishLine, ← hp, hrepr]
  have hlenp : p.length = 68 := by
    have h1 : 68 ≤ p.length := by
      rw [hp]
      simp [padRightList]
      omega
    rw [hfin] at hb
    simp at hb
    omega
  have hdig : ∀ c : ℕ, c < 10 → (Char.ofNat (48 + c)).isDigit = true := by decide
  have hval : ∀ c : ℕ, c < 10 → (Char.ofNat (48 + c)).toNat - 48 = c := by decide
  refine ⟨Char.ofNat (48 + tleChecksum p), ?_, hdig _ hcs, ?_⟩
  · rw [hfin]
    exact List.getLast?_concat _
  · rw [hfin]
    have htake : (p ++ [Char.ofNat (48 + tleChecksum p)]).take 68 = p :=
      List.take_left' hlenp
    rw [htake, ← tleChecksum_eq_specChecksum p (le_of_eq hlenp)]
    exact hval _ hcs

/-! ## Claim C8 — checksum law of the encoder -/
/-- C8: for every line produced by the TLE encoder `createTLEFromKeplerian`
(line 1 and line 2, here of the stated 69-character shape), the trailing
character is a digit equal to (sum of digit characters + count of '-')
mod 10 over the preceding 68 columns. -/
theorem claim_c8_tle_checksum_law (rand : ℕ) (epochStr : List Char) (e : KeplerianElements)
    (h1 : (createTLEFromKeplerian rand epochStr e).1.length = 69)
    (h2 : (createTLEFromKeplerian rand epochStr e).2.1.length = 69) :
    (∃ d, (createTLEFromKeplerian rand epochStr e).1.getLast? = some d ∧ d.isDigit = true ∧
        d.toNat - 48 = specChecksum ((createTLEFromKeplerian rand epochStr e).1.take 68)) ∧
    (∃ d, (createTLEFromKeplerian rand epochStr e).2.1.getLast? = some d ∧ d.isDigit = true ∧
        d.toNat - 48 = specChecksum ((createTLEFromKeplerian rand epochStr e).2.1.take 68)) :=
  ⟨tleFinishLine_checksum _ h1, tleFinishLine_checksum _ h2⟩

/-- Witness for C8 at a concrete element set (both hypotheses hold there). -/
theorem claim_c8_witness :
    (createTLEFromKeplerian 3 "24100.50000000".data eW8).1.length = 69 ∧
    (createTLEFromKeplerian 3 "24100.50000000".data eW8).2.1.length = 69 ∧
    ((∃ d, (createTLEFromKeplerian 3 "24100.50000000".data eW8).1.getLast? = some d ∧
        d.isDigit = true ∧
        d.toNat - 48 = specChecksum ((createTLEFromKeplerian 3 "24100.50000000".data eW8).1.take 68)) ∧
     (∃ d, (createTLEFromKeplerian 3 "24100.50000000".data eW8).2.1.getLast? = some d ∧
        d.isDigit = true ∧
        d.toNat - 48 = specChecksum ((createTLEFromKeplerian 3 "24100.50000000".data eW8).2.1.take 68))) :=
  ⟨by decide, by decide,
   claim_c8_tle_checksum_law 3 "24100.50000000".data eW8 (by decide) (by decide)⟩

/-- C1 (evaluation at the failing input): the encoder writes line 2 with no
separator column after the catalog number, so every field after the
inclination sits two columns left of the standard TLE columns the decoder
reads.  Decoding `encode(eC1)` yields RAAN 7.46 (true 247.46), eccentricity
0.067 (true 0.00067), argument of perigee 0.53 (true 130.53), mean anomaly
5.02 (true 325.02) and mean motion 0.5 (true 15.5): far outside the 1e-3
round-trip tolerance, although `eC1` is a valid element set. -/
theorem claim_c1_roundtrip_code_bug :
    parseTLE2Fields (createTLEFromKeplerian 0 "24001.00000000".data eC1).2.1 =
      { inclinationDeg := some (2582001 / 50000), raanDeg := some (373 / 50),
        eccentricity := some (67 / 1000), argPerigeeDeg := some (53 / 100),
        meanAnomalyDeg := some (251 / 50), meanMotionRevPerDay := some (1 / 2) } ∧
    ¬ (|(373 : ℚ) / 50 - eC1.raanDeg| ≤ 1 / 1000) ∧
    ¬ (|(1 : ℚ) / 2 - eC1.meanMotionRevPerDay| ≤ 1 / 1000) ∧
    ¬ (|(67 : ℚ) / 1000 - eC1.eccentricity| ≤ 1 / 1000) ∧
    0 ≤ eC1.eccentricity ∧ eC1.eccentricity < 1 ∧ 0 < eC1.meanMotionRevPerDay := by
  decide

/-! ## Claim C4 — risk tier table -/
/-- C4: `assessRiskLevel` returns exactly the tier given by the three time
bands of spec §4.5 (in particular there is no CRITICAL tier at
`timeToTcaMinutes ≥ 1440`), and `assessRiskLevel(0.4, 8) = CRITICAL`. -/
theorem claim_c4_risk_tiers :
    (∀ missDistanceKm timeToTcaMinutes : ℚ,
      assessRiskLevel missDistanceKm timeToTcaMinutes =
        riskLevelSpec missDistanceKm timeToTcaMinutes) ∧
    assessRiskLevel 0.4 8 = RiskLevel.CRITICAL ∧
    (∀ missDistanceKm : ℚ, ∀ timeToTcaMinutes : ℚ, 1440 ≤ timeToTcaMinutes →
      assessRiskLevel missDistanceKm timeToTcaMinutes ≠ RiskLevel.CRITICAL) := by
  refine ⟨fun d t => rfl, by decide, fun d t ht => ?_⟩
  rw [assessRiskLevel]
  rw [if_neg (by linarith), if_neg (by linarith)]
  split_ifs <;> simp

/-- Witness for C4's third conjunct at a concrete far-out conjunction. -/
theorem claim_c4_witness :
    (1440 : ℚ) ≤ 2000 ∧ assessRiskLevel 0.2 2000 ≠ RiskLevel.CRITICAL :=
  ⟨by norm_num, (claim_c4_risk_tiers.2.2) 0.2 2000 (by norm_num)⟩

/-! ## Claim C3 — probability bounds and formula -/
/-- C3 counterexample: with (admittedly unphysical, but quantified over by
the claim) negative radii `radiusA = radiusB = -0.01` and
`missDistanceKm = 1`, the code clamps the negative product to 0 while the
claim's formula `min(1, exp(...)·combined/d)` is negative, so the two
differ. -/
theorem claim_c3_counterexample :
    calculateCollisionProbability 1 7.5 (-0.01) (-0.01) ≠
      probabilitySpec 1 7.5 (-0.01) (-0.01) := by
  have hcond : ¬ ((1 : ℝ) ≤ (-0.01) + (-0.01)) := by norm_num
  have hx : Real.exp (-((1 : ℝ) / max 0.5 (1 * 0.1)) ^ 2 / 2) *
      (((-0.01) + (-0.01)) / 1) < 0 := by
    apply mul_neg_of_pos_of_neg (Real.exp_pos _)
    norm_num
  have hL : calculateCollisionProbability 1 7.5 (-0.01) (-0.01) = 0 := by
    rw [calculateCollisionProbability, if_neg hcond, max_eq_left hx.le]
    norm_num
  have hR : probabilitySpec 1 7.5 (-0.01) (-0.01) < 0 := by
    rw [probabilitySpec, if_neg hcond]
    exact lt_of_le_of_lt (min_le_right _ _) hx
  rw [hL]
  exact Ne.symm hR.ne

/-- C3 amended: the result is always in [0,1]; it is exactly 1 whenever
`missDistanceKm ≤ radiusA+radiusB`; and whenever the combined radius is
nonnegative (every physically meaningful call, and in particular the
defaults 0.01/0.01) the result coincides with the spec's
`min(1, exp(-(d/sigma)²/2)·combined/d)` formula. -/
theorem claim_c3_probability_amended (d v rA rB : ℝ) :
    (0 ≤ calculateCollisionProbability d v rA rB ∧
      calculateCollisionProbability d v rA rB ≤ 1) ∧
    (d ≤ rA + rB → calculateCollisionProbability d v rA rB = 1) ∧
    (0 ≤ rA + rB →
      calculateCollisionProbability d v rA rB = probabilitySpec d v rA rB) := by
  refine ⟨?_, fun h => by rw [calculateCollisionProbability, if_pos h], fun hc => ?_⟩
  · rw [calculateCollisionProbability]
    by_cases h : d ≤ rA + rB
    · rw [if_pos h]
      norm_num
    · rw [if_neg h]
      exact ⟨le_min (by norm_num) (le_max_left _ _), min_le_left _ _⟩
  · rw [calculateCollisionProbability, probabilitySpec]
    by_cases h : d ≤ rA + rB
    · rw [if_pos h, if_pos h]
    · rw [if_neg h, if_neg h]
      have hd : (0 : ℝ) < d := lt_of_le_of_lt hc (lt_of_not_le h)
      have hx : 0 ≤ Real.exp (-(d / max 0.5 (d * 0.1)) ^ 2 / 2) * ((rA + rB) / d) :=
        mul_nonneg (Real.exp_pos _).le (div_nonneg hc hd.le)
      rw [max_eq_right hx]

/-- Witness for C3's amended claim: certain collision inside the combined
radius, and agreement with the spec formula at the default radii. -/
theorem claim_c3_witness :
    calculateCollisionProbability 0.01 7.5 0.01 0.01 = 1 ∧
    calculateCollisionProbability 3 7.5 0.01 0.01 = probabilitySpec 3 7.5 0.01 0.01 :=
  ⟨(claim_c3_probability_amended 0.01 7.5 0.01 0.01).2.1 (by norm_num),
   (claim_c3_probability_amended 3 7.5 0.01 0.01).2.2 (by norm_num)⟩

/-! ## Claim C7 — conjunction miss distance and marker -/
/-- C7: for every pair of geodetic positions at TCA, the reported miss
distance equals `sqrt(groundDistanceKm² + altitudeDeltaKm²)` where
`groundDistanceKm` is the haversine great-circle distance (Earth radius
6371 km) and `altitudeDeltaKm` is the *absolute* altitude difference, and
the conjunction marker is the arithmetic midpoint of latitudes, longitudes
and altitudes. -/
theorem claim_c7_miss_distance (p1 p2 : GeoPos) :
    conjunctionMissDistanceKm p1 p2 =
      Real.sqrt (haversineGroundDistanceKm p1 p2 ^ 2 + |p2.altKm - p1.altKm| ^ 2) ∧
    conjunctionMarker p1 p2 =
      ⟨(p1.lat + p2.lat) / 2, (p1.lon + p2.lon) / 2, (p1.altKm + p2.altKm) / 2⟩ := by
  refine ⟨?_, rfl⟩
  rw [conjunctionMissDistanceKm]
  congr 1
  rw [sq_abs]
  ring

/-- C2 counterexample: an altitude-change maneuver whose resulting
semi-major axis is −229 km (non-positive) is *not* rejected —
`applyManeuver` succeeds (with a non-finite mean motion) instead of failing
with `ManeuverRejected`. -/
theorem claim_c2_counterexample :
    newSemiMajorAxisKm eC2 adjC2 = -229 ∧
    (applyManeuver eC2 adjC2 satC2 0).toOption.isSome = true := by
  exact ⟨by decide, rfl⟩

/-- C2 amended: `applyManeuver` performs no domain validation at all — it
always succeeds, and the resulting eccentricity is clamped into [0, 0.9]
(so it can never leave [0,1), making that rejection condition unreachable);
a non-positive resulting semi-major axis is accepted and merely yields a
non-finite mean motion.  The input element set is never mutated (the result
is a freshly built record). -/
theorem claim_c2_amended (e : LocalKeplerianElements) (adj : ManeuverAdjustments)
    (sat : SatelliteIdentity) (now : ℚ) :
    ∃ r, applyManeuver e adj sat now = Except.ok r ∧
      0 ≤ r.newElements.eccentricity ∧ r.newElements.eccentricity ≤ 0.9 ∧
      (r.newElements.meanMotionRevPerDay = maneuverMeanMotion (newSemiMajorAxisKm e adj)) :=
  ⟨_, rfl, le_max_left _ _, max_le (by norm_num) (min_le_left _ _), rfl⟩

/-- C9 counterexample: the same altitude delta applied to the same base
element set and the same satellite identity does *not* produce identical
resulting element sets when applied at two different wall-clock instants —
`applyManeuver` stamps `epoch: new Date()`, so the produced element sets
(and hence their TLE encodings' epoch columns) differ. -/
theorem claim_c9_counterexample :
    applyManeuver eC2 adjC9 satC2 0 ≠ applyManeuver eC2 adjC9 satC2 60000 := by
  intro h
  have h2 := congrArg
    (fun r => match r with
      | Except.ok a => a.newElements.epoch
      | Except.error _ => 0) h
  simp only [applyManeuver] at h2
  norm_num at h2

/-- C9 amended: maneuver application is a pure function of (base elements,
adjustments, satellite identity, wall-clock instant): it always succeeds,
every produced field other than the epoch is independent of the instant,
and the epoch field equals the instant of application.  (In the model the
input record is immutable, reflecting that the source builds a fresh
`newElements` object and never writes to `elements`.) -/
theorem claim_c9_amended (e : LocalKeplerianElements) (adj : ManeuverAdjustments)
    (sat : SatelliteIdentity) (now1 now2 : ℚ) :
    ∃ r1 r2, applyManeuver e adj sat now1 = Except.ok r1 ∧
      applyManeuver e adj sat now2 = Except.ok r2 ∧
      r1.newElements.inclinationDeg = r2.newElements.inclinationDeg ∧
      r1.newElements.raanDeg = r2.newElements.raanDeg ∧
      r1.newElements.eccentricity = r2.newElements.eccentricity ∧
      r1.newElements.argumentOfPerigeeDeg = r2.newElements.argumentOfPerigeeDeg ∧
      r1.newElements.meanAnomalyDeg = r2.newElements.meanAnomalyDeg ∧
      r1.newElements.meanMotionRevPerDay = r2.newElements.meanMotionRevPerDay ∧
      r1.newElements.noradId = r2.newElements.noradId ∧
      r1.newElements.name = r2.newElements.name ∧
      r1.deltaVMs = r2.deltaVMs ∧
      r1.newElements.epoch = now1 ∧ r2.newElements.epoch = now2 :=
  ⟨_, _, rfl, rfl, rfl, rfl, rfl, rfl, rfl, rfl, rfl, rfl, rfl, rfl, rfl⟩

theorem runLoop_eq_processSamples (geo : ℚ → Option (JsNum × JsNum × JsNum))
    (duration step start : ℚ) : ∀ m : ℚ,
    runLoop geo duration step start m =
      processSamples ((sampleOffsets duration step m).map
        (fun k => classifySample (geo (start + k * 60000)))) := by
  intro m
  induction m using sampleOffsets.induct duration step with
  | case1 m h ih =>
    rw [runLoop.eq_def, sampleOffsets.eq_def, dif_pos h, dif_pos h]
    simp only [List.map_cons]
    cases hc : classifySample (geo (start + m * 60000)) with
    | abort => simp [processSamples]
    | skip => simp [processSamples, ih]
    | keep p => simp [processSamples, ih]
  | case2 m h =>
    rw [runLoop.eq_def, sampleOffsets.eq_def, dif_neg h, dif_neg h]
    simp [processSamples]

theorem processSamples_eq_none_iff (l : List SampleClass) :
    processSamples l = none ↔ SampleClass.abort ∈ l := by
  induction l with
  | nil => simp [processSamples]
  | cons c rest ih =>
    cases c with
    | skip => simp [processSamples, ih]
    | abort => simp [processSamples]
    | keep p => simp [processSamples, Option.map_eq_none', ih]

theorem processSamples_of_no_abort (l : List SampleClass)
    (h : SampleClass.abort ∉ l) :
    processSamples l = some (l.filterMap keepOf) := by
  induction l with
  | nil => simp [processSamples]
  | cons c rest ih =>
    cases c with
    | skip =>
      rw [processSamples, ih (fun hm => h (List.mem_cons_of_mem _ hm))]
      simp [keepOf]
    | abort => exact absurd (List.mem_cons_self _ _) h
    | keep p =>
      rw [processSamples, ih (fun hm => h (List.mem_cons_of_mem _ hm))]
      simp [keepOf]

theorem sampleOffsets_length (duration step : ℚ) : ∀ m : ℚ, 0 < step → m ≤ duration →
    ((sampleOffsets duration step m).length : ℤ) = ⌊(duration - m) / step⌋ + 1 := by
  intro m
  induction m using sampleOffsets.induct duration step with
  | case1 m h ih =>
    intro hs hm
    rw [sampleOffsets.eq_def, dif_pos h]
    by_cases h2 : m + step ≤ duration
    · have hrec := ih hs h2
      have hfl : (duration - (m + step)) / step = (duration - m) / step - 1 := by
        field_simp
        ring
      rw [hfl, Int.floor_sub_one] at hrec
      simp only [List.length_cons]
      push_cast
      omega
    · have hnil : sampleOffsets duration step (m + step) = [] := by
        rw [sampleOffsets.eq_def, dif_neg]
        intro hcon
        exact h2 hcon.2
      rw [hnil]
      have hlt : (duration - m) / step < 1 := by
        rw [div_lt_one hs]
        linarith [lt_of_not_le h2]
      have hge : (0 : ℚ) ≤ (duration - m) / step := div_nonneg (by linarith) hs.le
      have : ⌊(duration - m) / step⌋ = 0 := by
        rw [Int.floor_eq_zero_iff]
        exact ⟨hge, hlt⟩
      simp [this]
  | case2 m h =>
    intro hs hm
    exact absurd ⟨hs, hm⟩ h

theorem runLoop_sound (geo : ℚ → Option (JsNum × JsNum × JsNum))
    (duration step start : ℚ) (hs : 0 < step) : ∀ m : ℚ,
    LoopRun geo duration step start m (runLoop geo duration step start m) := by
  intro m
  induction m using sampleOffsets.induct duration step with
  | case1 m h ih =>
    rw [runLoop.eq_def, dif_pos h]
    cases hc : classifySample (geo (start + m * 60000)) with
    | abort => exact LoopRun.abort m h.2 hc
    | skip => exact LoopRun.skip m _ h.2 hc ih
    | keep p => exact LoopRun.keep m p _ h.2 hc ih
  | case2 m h =>
    rw [runLoop.eq_def, dif_neg h]
    exact LoopRun.done m (fun hm => h ⟨hs, hm⟩)

theorem classifySample_keep_bounds (g : Option (JsNum × JsNum × JsNum))
    (p : OrbitPoint) (h : classifySample g = .keep p) :
    100 ≤ p.altKm ∧ p.altKm ≤ 100000 := by
  match g with
  | none => simp [classifySample] at h
  | some (lat, lon, alt) =>
    rw [classifySample] at h
    by_cases h1 : (jsLt alt (.fin 100) || jsLt (.fin 100000) alt) = true
    · rw [if_pos h1] at h
      cases h
    · rw [if_neg h1] at h
      by_cases h2 : (!(jsIsFinite alt && jsIsFinite lat && jsIsFinite lon)) = true
      · rw [if_pos h2] at h
        cases h
      · rw [if_neg h2] at h
        have halt : jsIsFinite alt = true := by
          have h2' : (jsIsFinite alt && jsIsFinite lat && jsIsFinite lon) = true := by
            revert h2
            cases hb : (jsIsFinite alt && jsIsFinite lat && jsIsFinite lon) <;> simp
          exact (Bool.and_eq_true_iff.mp (Bool.and_eq_true_iff.mp h2').1).1
        match alt, halt with
        | .fin q, _ =>
          injection h with h
          subst h
          simp only [jsLt, Bool.or_eq_true, decide_eq_true_eq, not_or] at h1
          simp only [jsNumVal]
          constructor
          · linarith [not_lt.mp h1.1]
          · linarith [not_lt.mp h1.2]

theorem runLoop_bounds (geo : ℚ → Option (JsNum × JsNum × JsNum))
    (duration step start : ℚ) : ∀ m : ℚ, ∀ l : List OrbitPoint,
    runLoop geo duration step start m = some l →
    ∀ p ∈ l, 100 ≤ p.altKm ∧ p.altKm ≤ 100000 := by
  intro m
  induction m using sampleOffsets.induct duration step with
  | case1 m h ih =>
    intro l hl p hp
    rw [runLoop.eq_def, dif_pos h] at hl
    cases hc : classifySample (geo (start + m * 60000)) with
    | abort => rw [hc] at hl; cases hl
    | skip =>
      rw [hc] at hl
      exact ih l hl p hp
    | keep q =>
      rw [hc] at hl
      cases hrec : runLoop geo duration step start (m + step) with
      | none => rw [hrec] at hl; cases hl
      | some l2 =>
        rw [hrec] at hl
        injection hl with hl
        subst hl
        rcases List.mem_cons.mp hp with hpq | hpl
        · subst hpq
          exact classifySample_keep_bounds _ _ hc
        · exact ih l2 hrec p hpl
  | case2 m h =>
    intro l hl p hp
    rw [runLoop.eq_def, dif_neg h] at hl
    injection hl with hl
    subst hl
    cases hp

theorem parseGuards_pos {P : Propagator} {tle1 tle2 : List Char} {mm : ℚ}
    (h : parseGuards P tle1 tle2 = some mm) : 0 < mm := by
  unfold parseGuards at h
  split at h
  · cases h
  split at h
  · cases h
  split at h
  · cases h
  split at h
  · cases h
  split at h
  · cases h
  next m heq =>
    split at h
    · cases h
    next hle =>
      injection h with h
      subst h
      linarith [lt_of_not_le hle]

theorem generateOrbitPath_guard_fail {P : Propagator} {tle1 tle2 : List Char}
    (hpg : parseGuards P tle1 tle2 = none) (ma : Option ℚ) (s c : ℚ) :
    generateOrbitPath P tle1 tle2 ma s c = [] := by
  rw [generateOrbitPath, hpg]

theorem generateOrbitPath_of_guards {P : Propagator} {tle1 tle2 : List Char} {mm : ℚ}
    (hpg : parseGuards P tle1 tle2 = some mm) (ma : Option ℚ) (s c : ℚ) :
    generateOrbitPath P tle1 tle2 ma s c =
      (runLoop P.geo (orbitDuration mm ma) (orbitStep mm s)
        (orbitStart c (orbitDuration mm ma)) 0).getD [] := by
  rw [generateOrbitPath, hpg]

theorem GenOrbitRun_guard_fail {P : Propagator} {tle1 tle2 : List Char}
    (hpg : parseGuards P tle1 tle2 = none) (ma : Option ℚ) (s c : ℚ)
    (out : List OrbitPoint) :
    GenOrbitRun P tle1 tle2 ma s c out ↔ out = [] := by
  rw [GenOrbitRun, hpg]

theorem GenOrbitRun_of_guards {P : Propagator} {tle1 tle2 : List Char} {mm : ℚ}
    (hpg : parseGuards P tle1 tle2 = some mm) (ma : Option ℚ) (s c : ℚ)
    (out : List OrbitPoint) :
    GenOrbitRun P tle1 tle2 ma s c out ↔
      ∃ r, LoopRun P.geo (orbitDuration mm ma) (orbitStep mm s)
        (orbitStart c (orbitDuration mm ma)) 0 r ∧ out = r.getD [] := by
  rw [GenOrbitRun, hpg]

/-! ## Claim C6 — centred window, default duration, effective step,
raw sample count -/
/-- C6: under the source's guards (valid TLE lines, parsed mean motion
`mm > 0`, positive requested step, nonnegative requested duration), the
sampling of `generateOrbitPath` evaluates the propagator exactly at the
offsets `0, step, 2·step, … ≤ duration` from `start = center − duration/2`
(in ms), the default duration is one orbital period `1440/mm`, the
effective step is `min(requestedStep, period/100)`, and the number of raw
evaluation offsets is exactly `⌊duration/step⌋ + 1`. -/
theorem claim_c6_sampling (P : Propagator) (tle1 tle2 : List Char) (ma : Option ℚ)
    (s c mm : ℚ) (hpg : parseGuards P tle1 tle2 = some mm) (hs : 0 < s)
    (hma : ∀ d0, ma = some d0 → 0 ≤ d0) :
    generateOrbitPath P tle1 tle2 ma s c =
      (processSamples ((sampleOffsets (orbitDuration mm ma) (orbitStep mm s) 0).map
        (fun k => classifySample
          (P.geo (orbitStart c (orbitDuration mm ma) + k * 60000))))).getD [] ∧
    orbitStart c (orbitDuration mm ma) = c - orbitDuration mm ma / 2 * 60000 ∧
    orbitDuration mm none = 1440 / mm ∧
    orbitStep mm s = min s ((1440 / mm) / 100) ∧
    ((sampleOffsets (orbitDuration mm ma) (orbitStep mm s) 0).length : ℤ) =
      ⌊orbitDuration mm ma / orbitStep mm s⌋ + 1 := by
  have hmm := parseGuards_pos hpg
  have hstep : 0 < orbitStep mm s :=
    lt_min hs (div_pos (div_pos (by norm_num) hmm) (by norm_num))
  have hdur : 0 ≤ orbitDuration mm ma := by
    cases ma with
    | none =>
      rw [orbitDuration]
      exact le_of_lt (div_pos (by norm_num) hmm)
    | some d0 => simpa [orbitDuration] using hma d0 rfl
  refine ⟨?_, rfl, rfl, rfl, ?_⟩
  · rw [generateOrbitPath_of_guards hpg, runLoop_eq_processSamples]
  · have hlen := sampleOffsets_length (orbitDuration mm ma) (orbitStep mm s) 0 hstep
      (by linarith)
    simpa using hlen

/-- Witness for C6 at the concrete TLE pair, a 1-minute window and a
half-minute step (the sample-count conclusion instantiated). -/
theorem claim_c6_witness :
    parseGuards pOK tleA tleB = some (31 / 2) ∧
    ((sampleOffsets (orbitDuration (31 / 2) (some 1)) (orbitStep (31 / 2) (1 / 2))
        0).length : ℤ) =
      ⌊orbitDuration (31 / 2) (some 1) / orbitStep (31 / 2) (1 / 2)⌋ + 1 :=
  ⟨by decide,
   (claim_c6_sampling pOK tleA tleB (some 1) (1 / 2) 30000 (31 / 2) (by decide)
      (by norm_num)
      (fun d0 hd => by cases hd; norm_num)).2.2.2.2⟩

/-! ## Claim C5 — per-sample dropping vs whole-path discarding -/
/-- C5 amended: under the source's guards, (i) if any evaluated sample
classifies as `abort` the whole path is discarded (`[]` is returned);
(ii) if no evaluated sample aborts, the path is exactly the per-sample
filter of the evaluated offsets (skipped samples are dropped individually,
kept ones survive); (iii) a sample whose altitude compares below 100 km or
above 100000 km — which includes `+∞` and `-∞` altitudes — is dropped
individually (classified `skip`), *not* aborted; the whole-path discard
only fires for samples passing the range check with a non-finite (NaN)
altitude or non-finite latitude/longitude. -/
theorem claim_c5_filter_amended (P : Propagator) (tle1 tle2 : List Char) (ma : Option ℚ)
    (s c mm : ℚ) (hpg : parseGuards P tle1 tle2 = some mm) :
    ((∃ k ∈ sampleOffsets (orbitDuration mm ma) (orbitStep mm s) 0,
        classifySample (P.geo (orbitStart c (orbitDuration mm ma) + k * 60000)) =
          .abort) →
      generateOrbitPath P tle1 tle2 ma s c = []) ∧
    ((∀ k ∈ sampleOffsets (orbitDuration mm ma) (orbitStep mm s) 0,
        classifySample (P.geo (orbitStart c (orbitDuration mm ma) + k * 60000)) ≠
          .abort) →
      generateOrbitPath P tle1 tle2 ma s c =
        (sampleOffsets (orbitDuration mm ma) (orbitStep mm s) 0).filterMap
          (fun k => keepOf (classifySample
            (P.geo (orbitStart c (orbitDuration mm ma) + k * 60000))))) ∧
    (∀ lat lon alt : JsNum,
      (jsLt alt (JsNum.fin 100) || jsLt (JsNum.fin 100000) alt) = true →
      classifySample (some (lat, lon, alt)) = .skip) := by
  have hpath : generateOrbitPath P tle1 tle2 ma s c =
      (processSamples ((sampleOffsets (orbitDuration mm ma) (orbitStep mm s) 0).map
        (fun k => classifySample
          (P.geo (orbitStart c (orbitDuration mm ma) + k * 60000))))).getD [] := by
    rw [generateOrbitPath_of_guards hpg, runLoop_eq_processSamples]
  refine ⟨?_, ?_, ?_⟩
  · rintro ⟨k, hk, habort⟩
    have hmem : SampleClass.abort ∈
        (sampleOffsets (orbitDuration mm ma) (orbitStep mm s) 0).map
          (fun k => classifySample
            (P.geo (orbitStart c (orbitDuration mm ma) + k * 60000))) :=
      List.mem_map.mpr ⟨k, hk, habort⟩
    rw [hpath, (processSamples_eq_none_iff _).mpr hmem]
    rfl
  · intro hno
    have hnotmem : SampleClass.abort ∉
        (sampleOffsets (orbitDuration mm ma) (orbitStep mm s) 0).map
          (fun k => classifySample
            (P.geo (orbitStart c (orbitDuration mm ma) + k * 60000))) := by
      intro hmem
      obtain ⟨k, hk, hke⟩ := List.mem_map.mp hmem
      exact hno k hk hke
    rw [hpath, processSamples_of_no_abort _ hnotmem]
    rw [Option.getD_some, List.filterMap_map]
    rfl
  · intro lat lon alt hlt
    rw [classifySample, if_pos hlt]

/-- C5 counterexample: the propagator yields a *non-finite* (+∞) altitude at
the first evaluated sample, yet the trajectory is *not* discarded — the
sample is dropped individually (the altitude range check fires first) and
the remaining two samples are returned.  This refutes the claim that any
non-finite altitude discards the entire trajectory. -/
theorem claim_c5_counterexample :
    pInf.geo (orbitStart 30000 (orbitDuration (31 / 2) (some 1)) + 0 * 60000) =
      some (JsNum.fin 0, JsNum.fin 0, JsNum.pinf) ∧
    jsIsFinite JsNum.pinf = false ∧
    (0 : ℚ) ∈ sampleOffsets (orbitDuration (31 / 2) (some 1))
      (orbitStep (31 / 2) (1 / 2)) 0 ∧
    generateOrbitPath pInf tleA tleB (some 1) (1 / 2) 30000 =
      [⟨0, 0, 400⟩, ⟨0, 0, 400⟩] := by
  have hpg : parseGuards pInf tleA tleB = some (31 / 2) := by decide
  have hstep : orbitStep (31 / 2) (1 / 2) = 1 / 2 := by
    rw [orbitStep, min_eq_left]
    norm_num
  have hdur : orbitDuration (31 / 2) (some 1) = 1 := rfl
  have hoff : sampleOffsets 1 (1 / 2) 0 = [0, 1 / 2, 1] := by
    rw [sampleOffsets.eq_def, dif_pos (by norm_num)]
    norm_num
    rw [sampleOffsets.eq_def, dif_pos (by norm_num)]
    norm_num
    rw [sampleOffsets.eq_def, dif_pos (by norm_num)]
    norm_num
    rw [sampleOffsets.eq_def, dif_neg (by norm_num)]
  refine ⟨by decide, by decide, ?_, ?_⟩
  · rw [hdur, hstep, hoff]
    decide
  · rw [generateOrbitPath_of_guards hpg, runLoop_eq_processSamples, hdur, hstep, hoff]
    decide

/-! ## Claim C10 — totality and output invariant of `generateOrbitPath` -/
/-- No derivation of the sampling loop exists at `step = 0` from a start
offset below the duration, when every sample is kept (the JS loop runs
forever). -/
theorem loopRun_step_zero_no_run (geo : ℚ → Option (JsNum × JsNum × JsNum))
    (duration start : ℚ)
    (hk : ∀ t, classifySample (geo t) ≠ .abort ∧ classifySample (geo t) ≠ .skip) :
    ∀ m r, LoopRun geo duration 0 start m r → ¬ m ≤ duration := by
  intro m r h
  induction h with
  | done m hm => exact hm
  | abort m hm hc => exact absurd hc (hk _).1
  | skip m r hm hc hrec ih => exact absurd hc (hk _).2
  | keep m p r hm hc hrec ih =>
    intro _
    exact ih (by simpa using hm)

/-- C10 counterexample: with valid TLE lines, a positive parsed mean motion
and an always-successful propagator, but requested step `0` and duration
`10`, the semantics of `generateOrbitPath` admits *no* outcome at all — the
JS `for (m = 0; m <= duration; m += step)` loop never terminates, so the
function does not return an array (refuting totality over arbitrary
number inputs). -/
theorem claim_c10_counterexample :
    ¬ ∃ out : List OrbitPoint, GenOrbitRun pOK tleA tleB (some 10) 0 0 out := by
  rintro ⟨out, hrun⟩
  have hpg : parseGuards pOK tleA tleB = some (31 / 2) := by decide
  rw [GenOrbitRun_of_guards hpg] at hrun
  obtain ⟨r, hr, -⟩ := hrun
  have hstep : orbitStep (31 / 2) 0 = 0 := by
    rw [orbitStep, min_eq_left]
    norm_num
  have hdur : orbitDuration (31 / 2) (some 10) = 10 := rfl
  rw [hstep, hdur] at hr
  have hk : ∀ t, classifySample (pOK.geo t) ≠ .abort ∧
      classifySample (pOK.geo t) ≠ .skip := by
    intro t
    have hg : pOK.geo t = some (.fin 0, .fin 0, .fin 400) := rfl
    rw [hg]
    exact ⟨by decide, by decide⟩
  exact loopRun_step_zero_no_run pOK.geo 10 _ hk 0 r hr (by norm_num)

/-- C10 amended: for every propagator, TLE strings, duration, center and
*positive* requested step, `generateOrbitPath` terminates with a list that
is a valid run of the loop semantics (guard failures yield `[]`), and every
returned point satisfies the output invariant `100 ≤ altKm ≤ 100000` (with
finite latitude/longitude/altitude by construction of `OrbitPoint`). -/
theorem claim_c10_total_amended (P : Propagator) (tle1 tle2 : List Char)
    (ma : Option ℚ) (s c : ℚ) (hs : 0 < s) :
    GenOrbitRun P tle1 tle2 ma s c (generateOrbitPath P tle1 tle2 ma s c) ∧
    ∀ p ∈ generateOrbitPath P tle1 tle2 ma s c,
      100 ≤ p.altKm ∧ p.altKm ≤ 100000 := by
  constructor
  · cases hpg : parseGuards P tle1 tle2 with
    | none =>
      rw [GenOrbitRun_guard_fail hpg]
      exact generateOrbitPath_guard_fail hpg ma s c
    | some mm =>
      have hmm := parseGuards_pos hpg
      have hstep : 0 < orbitStep mm s :=
        lt_min hs (div_pos (div_pos (by norm_num) hmm) (by norm_num))
      rw [GenOrbitRun_of_guards hpg]
      exact ⟨_, runLoop_sound P.geo _ _ _ hstep 0,
        (generateOrbitPath_of_guards hpg ma s c)⟩
  · intro p hp
    cases hpg : parseGuards P tle1 tle2 with
    | none =>
      rw [generateOrbitPath_guard_fail hpg] at hp
      simp at hp
    | some mm =>
      rw [generateOrbitPath_of_guards hpg] at hp
      cases hrl : runLoop P.geo (orbitDuration mm ma) (orbitStep mm s)
          (orbitStart c (orbitDuration mm ma)) 0 with
      | none =>
        rw [hrl] at hp
        simp at hp
      | some l =>
        rw [hrl] at hp
        exact runLoop_bounds P.geo _ _ _ 0 l hrl p (by simpa using hp)

/-- Witness for C10's amended claim at the concrete inputs. -/
theorem claim_c10_witness :
    GenOrbitRun pOK tleA tleB (some 10) 2 0
      (generateOrbitPath pOK tleA tleB (some 10) 2 0) ∧
    ∀ p ∈ generateOrbitPath pOK tleA tleB (some 10) 2 0,
      100 ≤ p.altKm ∧ p.altKm ≤ 100000 :=
  claim_c10_total_amended pOK tleA tleB (some 10) 2 0 (by norm_num)

/-- Witness for C5's amended claim: at the concrete inputs (propagator with
one infinite-altitude sample), the no-abort branch applies and the produced
path is the per-sample filter of the three evaluated offsets. -/
theorem claim_c5_witness :
    generateOrbitPath pInf tleA tleB (some 1) (1 / 2) 30000 =
      (sampleOffsets (orbitDuration (31 / 2) (some 1)) (orbitStep (31 / 2) (1 / 2))
        0).filterMap
        (fun k => keepOf (classifySample
          (pInf.geo (orbitStart 30000 (orbitDuration (31 / 2) (some 1)) +
            k * 60000)))) := by
  have hstep : orbitStep (31 / 2) (1 / 2) = 1 / 2 := by
    rw [orbitStep, min_eq_left]
    norm_num
  have hdur : orbitDuration (31 / 2) (some 1) = 1 := rfl
  have hoff : sampleOffsets 1 (1 / 2) 0 = [0, 1 / 2, 1] := by
    rw [sampleOffsets.eq_def, dif_pos (by norm_num)]
    norm_num
    rw [sampleOffsets.eq_def, dif_pos (by norm_num)]
    norm_num
    rw [sampleOffsets.eq_def, dif_pos (by norm_num)]
    norm_num
    rw [sampleOffsets.eq_def, dif_neg (by norm_num)]
  apply (claim_c5_filter_amended pInf tleA tleB (some 1) (1 / 2) 30000 (31 / 2)
    (by decide)).2.1
  rw [hdur, hstep, hoff]
  decide
